import Mathlib

/-!
Verification of the apparatus experiment-tracking client
(`src/logging/apparatus/__init__.py`) and of the server-side store model that
the repository's spec describes.  Byte strings are modelled as `List Char`
(one `Char` per byte), JSON values as an inductive `Json`, machine integers
as `Int`/`Nat`, and Python floats as rationals (`Rat`); the claims settled
here never depend on floating-point rounding.
-/

/-- A parsed JSON value, as produced by `json.loads` / consumed by
`json.dumps`.  Objects keep their fields in insertion order, matching
Python dicts. -/
inductive Json where
  | str (s : String)
  | num (q : Rat)
  | bool (b : Bool)
  | null
  | arr (xs : List Json)
  | obj (fields : List (String × Json))

/-- The single quote character, written via its code point. -/
def sglQuote : String := String.singleton (Char.ofNat 39)

/-- Python numbers as they reach the client API: `int` or `float`.
Floats are modelled as rationals; the claims below never exercise rounding. -/
inductive PyNum where
  | int (n : Int)
  | float (q : Rat)
deriving DecidableEq, Repr

/-- Python `float(x)` applied to a number: ints convert exactly. -/
def pyFloat : PyNum → Rat
  | .int n => (n : Rat)
  | .float q => q

/-- Python `int(x)` applied to a number: floats truncate toward zero. -/
def pyInt : PyNum → Int
  | .int n => n
  | .float q => q.num.tdiv (q.den : Int)

/-- Python values that can be handed to `log_param`.  A `float` is carried
by its `str()` rendering, which is all `log_param` uses of it.  `other`
stands for a value of any type outside the four supported ones, carrying
the type's name. -/
inductive PyValue where
  | bool (b : Bool)
  | int (n : Int)
  | float (repr : String)
  | str (s : String)
  | other (typeName : String)
deriving DecidableEq, Repr

/-- Python exceptions raised by the client code. -/
inductive PyError where
  | typeError (msg : String)
  | runtimeError (msg : String)
  | fileNotFoundError (msg : String)
  | httpError (code : Nat)
  | keyError (key : String)
  | jsonDecodeError
deriving DecidableEq, Repr

/-- `isinstance(v, bool)`. -/
def isinstanceBool : PyValue → Bool
  | .bool _ => true
  | _ => false

/-- `isinstance(v, int)`: true for `bool` as well, since Python's `bool`
is a subtype of `int`. -/
def isinstanceInt : PyValue → Bool
  | .bool _ => true
  | .int _ => true
  | _ => false

/-- `isinstance(v, float)`. -/
def isinstanceFloat : PyValue → Bool
  | .float _ => true
  | _ => false

/-- `isinstance(v, str)`. -/
def isinstanceStr : PyValue → Bool
  | .str _ => true
  | _ => false

/-- Python truthiness, used by `"true" if value else "false"`.  Only the
`bool` case is reachable in the source; the rest follow Python's rules for
the modelled carriers. -/
def pyTruthy : PyValue → Bool
  | .bool b => b
  | .int n => decide (n ≠ 0)
  | .float _ => true
  | .str s => decide (s ≠ "")
  | .other _ => true

/-- Python `str(value)` on the modelled values. -/
def pyStrOfValue : PyValue → String
  | .bool b => if b then "True" else "False"
  | .int n => Int.repr n
  | .float r => r
  | .str s => s
  | .other t => "<" ++ t ++ " object>"

/-- `str(type(value))`, as interpolated into the `TypeError` message. -/
def pyTypeName : PyValue → String
  | .bool _ => "bool"
  | .int _ => "int"
  | .float _ => "float"
  | .str _ => "str"
  | .other t => t

mutual

/-- Python `repr` on a parsed JSON value (a Python str/list/dict/...).
String escaping and float formatting are not modelled; the claims below
only exercise strings and lists of strings. -/
def pyReprJson : Json → String
  | .str s => sglQuote ++ s ++ sglQuote
  | .num q => if q.den = 1 then Int.repr q.num else Int.repr q.num ++ "/" ++ Nat.repr q.den
  | .bool b => if b then "True" else "False"
  | .null => "None"
  | .arr xs => "[" ++ pyReprCommaSep xs ++ "]"
  | .obj fs => "\x7b" ++ pyReprFields fs ++ "\x7d"

/-- The comma-separated element list inside Python's `repr` of a list. -/
def pyReprCommaSep : List Json → String
  | [] => ""
  | [x] => pyReprJson x
  | x :: y :: xs => pyReprJson x ++ ", " ++ pyReprCommaSep (y :: xs)

/-- The comma-separated entry list inside Python's `repr` of a dict. -/
def pyReprFields : List (String × Json) → String
  | [] => ""
  | [(k, v)] => sglQuote ++ k ++ sglQuote ++ ": " ++ pyReprJson v
  | (k, v) :: f :: fs => sglQuote ++ k ++ sglQuote ++ ": " ++ pyReprJson v ++ ", " ++ pyReprFields (f :: fs)

end

/-- Python `str` on a parsed JSON value, as used by f-string interpolation:
identical to `repr` except on strings. -/
def pyStrJson : Json → String
  | .str s => s
  | j => pyReprJson j

/-- Dictionary lookup `d[k]` / membership `k in d` on a parsed JSON object;
`none` when the value is not an object or the key is absent. -/
def pyDictGet : Json → String → Option Json
  | .obj fields, k => List.lookup k fields
  | _, _ => none

/-- Python `d.get(k, default)`. -/
def pyDictGetD (j : Json) (k : String) (d : Json) : Json :=
  (pyDictGet j k).getD d

/-- Byte strings (`bytes`), one `Char` per byte. -/
abbrev Bytes := List Char

/-- `s.encode('utf-8')` restricted to the code-point sequence; the claims
only ever compare byte strings built from the same encoding. -/
def bs (s : String) : Bytes := s.data

/-- A hexadecimal digit, uppercase, as `urllib.parse.quote` emits. -/
def hexDigit (n : Nat) : Char :=
  if n < 10 then Char.ofNat (48 + n) else Char.ofNat (55 + n)

/-- `urllib.parse.quote` on one character: unreserved characters
(alphanumerics and `_.-~`) and the default-safe `/` pass through, anything
else is percent-encoded.  Modelled for single-byte (ASCII) characters,
which covers every input in this repository. -/
def quoteChar (c : Char) : String :=
  if c.isAlphanum || c = '_' || c = '.' || c = '-' || c = '~' || c = '/' then
    String.singleton c
  else
    "%" ++ String.singleton (hexDigit (c.toNat / 16)) ++ String.singleton (hexDigit (c.toNat % 16))

/-- `urllib.parse.quote` with its default `safe='/'`. -/
def quote (s : String) : String := String.join (s.data.map quoteChar)

/-- The body of an outgoing HTTP request: a JSON object (the client always
serialises a dict in insertion order) or raw bytes. -/
inductive ReqBody where
  | json (fields : List (String × Json))
  | bytes (b : Bytes)

/-- An HTTP request as assembled by `urllib.request.Request`. -/
structure HttpRequest where
  method : String
  url : String
  body : Option ReqBody
  headers : List (String × String)

/-- The server's reply to the one request an operation issues.  `urlopen`
returns normally on `success` and raises `urllib.error.HTTPError` on
`httpError`.  A body of `none` stands for a payload that `json.loads`
cannot decode. -/
inductive HttpResponse where
  | success (status : Nat) (body : Option Json)
  | httpError (code : Nat) (body : Option Json)

/-- `create_run` from `src/logging/apparatus/__init__.py`: builds
`POST {tracking_uri}/api/runs?name={quote(name)}`, issues it, decodes the
JSON response and returns `data["id"]`.  There is no `try`/`except`, so an
`HTTPError` from `urlopen` propagates.  The function's only parameters are
`name` and `tracking_uri`; the returned list records every request issued. -/
def create_run (name : String) (tracking_uri : String) (resp : HttpResponse) :
    List HttpRequest × Except PyError Json :=
  let url := tracking_uri ++ "/api/runs?name=" ++ quote name
  let req : HttpRequest := ⟨"POST", url, none, []⟩
  match resp with
  | .success _status body =>
    match body with
    | none => ([req], .error .jsonDecodeError)
    | some data =>
      match pyDictGet data "id" with
      | none => ([req], .error (.keyError "id"))
      | some v => ([req], .ok v)
  | .httpError code _ => ([req], .error (.httpError code))

/-- The type-detection chain at the top of `log_param`: `isinstance` checks
in source order (`bool` before `int` before `float` before `str`), yielding
the `value_type` tag and the serialised `value_str`, or a `TypeError` for
any other type. -/
def log_param_detect (value : PyValue) : Except PyError (String × String) :=
  if isinstanceBool value then
    .ok ("bool", if pyTruthy value then "true" else "false")
  else if isinstanceInt value then
    .ok ("int", pyStrOfValue value)
  else if isinstanceFloat value then
    .ok ("float", pyStrOfValue value)
  else if isinstanceStr value then
    .ok ("string", pyStrOfValue value)
  else
    .error (.typeError ("Unsupported parameter type: <class " ++ sglQuote ++ pyTypeName value ++ sglQuote ++ ">"))

/-- The query URL `log_param` builds once the type is detected. -/
def log_param_url (tracking_uri run_uuid key value_str value_type : String) : String :=
  tracking_uri ++ "/api/params?run_uuid=" ++ quote run_uuid ++ "&key=" ++ quote key
    ++ "&value=" ++ quote value_str ++ "&type=" ++ value_type

/-- `log_param` from the source: detect the value's type (raising
`TypeError` before any request when unsupported), issue one POST, return
`data["status"]`; a non-200 status or an `HTTPError` becomes a
`RuntimeError` naming the HTTP code. -/
def log_param (run_uuid key : String) (value : PyValue) (tracking_uri : String)
    (resp : HttpResponse) : List HttpRequest × Except PyError Json :=
  match log_param_detect value with
  | .error e => ([], .error e)
  | .ok (value_type, value_str) =>
    let req : HttpRequest :=
      ⟨"POST", log_param_url tracking_uri run_uuid key value_str value_type, none, []⟩
    match resp with
    | .success status body =>
      if status ≠ 200 then
        ([req], .error (.runtimeError ("Failed to log parameter: HTTP " ++ Nat.repr status)))
      else
        match body with
        | none => ([req], .error .jsonDecodeError)
        | some data =>
          match pyDictGet data "status" with
          | none => ([req], .error (.keyError "status"))
          | some v => ([req], .ok v)
    | .httpError code _ =>
      ([req], .error (.runtimeError ("Failed to log parameter: HTTP " ++ Nat.repr code)))

/-- The JSON payload `log_metric` assembles, in dict insertion order:
`run_uuid`, `key`, `value` (coerced with `float()`), `logged_at`
(defaulting to the current epoch-millisecond clock, `now_ms`), then
optionally `time` (`float()`-coerced) and `step` (`int()`-coerced).  When
neither `time_value` nor `step` is supplied, `time_value` is set to
`logged_at` first. -/
def log_metric_payload (run_uuid key : String) (value : PyNum)
    (logged_at : Option Int) (time_value : Option PyNum) (step : Option PyNum)
    (now_ms : Int) : List (String × Json) :=
  let logged_at : Int :=
    match logged_at with
    | none => now_ms
    | some t => t
  let time_value : Option PyNum :=
    if time_value = none ∧ step = none then some (.int logged_at) else time_value
  let payload : List (String × Json) :=
    [("run_uuid", .str run_uuid), ("key", .str key),
     ("value", .num (pyFloat value)), ("logged_at", .num (logged_at : Rat))]
  let payload : List (String × Json) :=
    match time_value with
    | none => payload
    | some t => payload ++ [("time", .num (pyFloat t))]
  match step with
  | none => payload
  | some s0 => payload ++ [("step", .num ((pyInt s0 : Int) : Rat))]

/-- The `except HTTPError` handler of `log_metric`: decode the error body
(`none` stands for a `json.JSONDecodeError`, which yields the HTTP-code
message); if the decoded object has `missing_fields`, interpolate
`error_data['error']` and `error_data['missing_fields']` into the message,
else fall back to `error_data.get('error', 'Unknown error')`. -/
def log_metric_handle_http_error (code : Nat) (body : Option Json) : PyError :=
  match body with
  | none => .runtimeError ("Failed to log metric: HTTP " ++ Nat.repr code)
  | some error_data =>
    match pyDictGet error_data "missing_fields" with
    | some mv =>
      match pyDictGet error_data "error" with
      | some ev =>
        .runtimeError ("Failed to log metric: " ++ pyStrJson ev ++ " - " ++ pyStrJson mv)
      | none => .keyError "error"
    | none =>
      .runtimeError ("Failed to log metric: " ++ pyStrJson (pyDictGetD error_data "error" (.str "Unknown error")))

/-- `log_metric` from the source: build the JSON payload, issue one POST to
`/api/metrics` with a `Content-Type: application/json` header, return
`result["status"]`; HTTP errors run through the handler above. -/
def log_metric (run_uuid key : String) (value : PyNum) (logged_at : Option Int)
    (time_value : Option PyNum) (step : Option PyNum) (tracking_uri : String)
    (now_ms : Int) (resp : HttpResponse) : List HttpRequest × Except PyError Json :=
  let payload := log_metric_payload run_uuid key value logged_at time_value step now_ms
  let req : HttpRequest :=
    ⟨"POST", tracking_uri ++ "/api/metrics", some (.json payload),
     [("Content-Type", "application/json")]⟩
  match resp with
  | .success status body =>
    if status ≠ 200 then
      ([req], .error (.runtimeError ("Failed to log metric: HTTP " ++ Nat.repr status)))
    else
      match body with
      | none => ([req], .error .jsonDecodeError)
      | some result =>
        match pyDictGet result "status" with
        | none => ([req], .error (.keyError "status"))
        | some v => ([req], .ok v)
  | .httpError code body => ([req], .error (log_metric_handle_http_error code body))

/-- The fixed multipart boundary string from `log_artifact`. -/
def boundary : String := "----ApparatusBoundary7MA4YWxkTrZu0gW"

/-- `os.path.basename` for the POSIX paths this repository uses: the part
after the last `/`. -/
def osPathBasename (p : String) : String :=
  (p.splitOn "/").getLastD ""

/-- The `body_parts` list of `log_artifact`, byte chunk by byte chunk,
exactly as appended in the source, and joined with `b"".join`. -/
def log_artifact_body_parts (run_uuid path filename : String) (file_content : Bytes) :
    List Bytes :=
  [ bs ("--" ++ boundary ++ "\r\n"),
    bs "Content-Disposition: form-data; name=\"run_uuid\"\r\n\r\n",
    bs run_uuid,
    bs ("\r\n--" ++ boundary ++ "\r\n"),
    bs "Content-Disposition: form-data; name=\"path\"\r\n\r\n",
    bs path,
    bs ("\r\n--" ++ boundary ++ "\r\n"),
    bs ("Content-Disposition: form-data; name=\"file\"; filename=\"" ++ filename ++ "\"\r\n"),
    bs "Content-Type: application/octet-stream\r\n\r\n",
    file_content,
    bs ("\r\n--" ++ boundary ++ "--\r\n") ]

/-- `body = b"".join(body_parts)`. -/
def log_artifact_body (run_uuid path filename : String) (file_content : Bytes) : Bytes :=
  (log_artifact_body_parts run_uuid path filename file_content).flatten

/-- `log_artifact` from the source: check the local file exists (raising
`FileNotFoundError` before any request when it does not), read its bytes,
build the multipart body with the file's basename, issue one POST to
`/api/artifacts`, and return `result["status"]`.  The filesystem is a map
from paths to byte contents. -/
def log_artifact (run_uuid path file_path : String) (fs : String → Option Bytes)
    (tracking_uri : String) (resp : HttpResponse) :
    List HttpRequest × Except PyError Json :=
  match fs file_path with
  | none => ([], .error (.fileNotFoundError ("File not found: " ++ file_path)))
  | some file_content =>
    let filename := osPathBasename file_path
    let body := log_artifact_body run_uuid path filename file_content
    let req : HttpRequest :=
      ⟨"POST", tracking_uri ++ "/api/artifacts", some (.bytes body),
       [("Content-Type", "multipart/form-data; boundary=" ++ boundary)]⟩
    match resp with
    | .success status rbody =>
      if status ≠ 200 then
        ([req], .error (.runtimeError ("Failed to log artifact: HTTP " ++ Nat.repr status)))
      else
        match rbody with
        | none => ([req], .error .jsonDecodeError)
        | some result =>
          match pyDictGet result "status" with
          | none => ([req], .error (.keyError "status"))
          | some v => ([req], .ok v)
    | .httpError code body2 =>
      match body2 with
      | none => ([req], .error (.runtimeError ("Failed to log artifact: HTTP " ++ Nat.repr code)))
      | some error_data =>
        ([req], .error (.runtimeError ("Failed to log artifact: " ++ pyStrJson (pyDictGetD error_data "error" (.str "Unknown error")))))

/-- One part of a `multipart/form-data` body, as the spec's wire contract
describes them: a plain text field or a binary file field. -/
inductive MultipartPart where
  | text (name value : String)
  | file (name filename contentType : String) (content : Bytes)

/-- The header-plus-content of one part (everything between boundary
delimiters). -/
def multipartPartBody : MultipartPart → Bytes
  | .text n v =>
    bs ("Content-Disposition: form-data; name=\"" ++ n ++ "\"\r\n\r\n") ++ bs v
  | .file n fn ct c =>
    bs ("Content-Disposition: form-data; name=\"" ++ n ++ "\"; filename=\"" ++ fn ++ "\"\r\n")
      ++ bs ("Content-Type: " ++ ct ++ "\r\n\r\n") ++ c

/-- The parts of a multipart body in order, separated by `\r\n--b\r\n`
delimiters. -/
def multipartParts (b : String) : List MultipartPart → Bytes
  | [] => []
  | [part] => multipartPartBody part
  | part :: p2 :: rest =>
    multipartPartBody part ++ bs ("\r\n--" ++ b ++ "\r\n") ++ multipartParts b (p2 :: rest)

/-- A complete `multipart/form-data` body with boundary `b`: opening
delimiter, the parts in order, closing delimiter. -/
def encodeMultipart (b : String) (parts : List MultipartPart) : Bytes :=
  bs ("--" ++ b ++ "\r\n") ++ multipartParts b parts ++ bs ("\r\n--" ++ b ++ "--\r\n")

/-- Modelled from the spec: the tracking server (its Experiment/Run Store)
is not part of the supplied source; this record is the spec's Run —
name, optional parent, and the depth stored denormalized at creation time
(0 = root, at most 2). -/
structure SRun where
  name : String
  parentId : Option Nat
  depth : Nat
deriving DecidableEq, Repr

/-- Modelled from the spec: the error taxonomy of §7 relevant to run
creation — `NotFound` for an unknown parent, `DepthExceeded` with a
human-readable message for nesting beyond 2 levels. -/
inductive StoreError where
  | notFound
  | depthExceeded (msg : String)
deriving DecidableEq, Repr

/-- Modelled from the spec: the façade's translation of store errors into
transport-level status codes (not found → 404-class, depth exceeded →
400-class). -/
def httpStatusOf : StoreError → Nat
  | .notFound => 404
  | .depthExceeded _ => 400

/-- Modelled from the spec: the server's run table; a run's id is its index
(ids are assigned fresh at creation, so index order is creation order). -/
abbrev RunStoreState := List SRun

/-- Modelled from the spec: `create_run(name, parent_id?)` of the
Experiment/Run Store.  With a parent: load it (`NotFound` if absent),
compute `depth = parent.depth + 1` against the parent's stored depth, and
fail with `DepthExceeded` — surfaced with a message containing
"maximum nesting level" — when the would-be depth exceeds 2.  Returns the
extended table and the new run's id. -/
def createRunStore (s : RunStoreState) (name : String) (parent : Option Nat) :
    Except StoreError (RunStoreState × Nat) :=
  match parent with
  | none => .ok (s ++ [⟨name, none, 0⟩], s.length)
  | some p =>
    match s[p]? with
    | none => .error .notFound
    | some pr =>
      let d := pr.depth + 1
      if d > 2 then
        .error (.depthExceeded "Cannot create run: maximum nesting level of 2 exceeded")
      else
        .ok (s ++ [⟨name, some p, d⟩], s.length)

/-- Modelled from the spec: the ancestor chain of a run (root first, then
down to the immediate parent), computed by walking `parent_id`; the fuel
argument bounds the walk and is instantiated with the table size. -/
def ancestorChain (s : RunStoreState) : Nat → Nat → List Nat
  | 0, _ => []
  | fuel + 1, i =>
    match s[i]? with
    | none => []
    | some r =>
      match r.parentId with
      | none => []
      | some p => ancestorChain s fuel p ++ [p]

/-- Modelled from the spec: `ancestors(run_id)`, with the number of
ancestors of a run being the chain's length. -/
def numAncestors (s : RunStoreState) (i : Nat) : Nat :=
  (ancestorChain s s.length i).length

/-- The store's structural invariant: every run's parent (when present)
sits strictly earlier in the table and the stored depth is the parent's
plus one; roots have depth 0. -/
def StoreWf (s : RunStoreState) : Prop :=
  ∀ (i : Nat) (r : SRun), s[i]? = some r →
    match r.parentId with
    | none => r.depth = 0
    | some p => p < i ∧ ∃ pr, s[p]? = some pr ∧ r.depth = pr.depth + 1

/-- Modelled from the spec: one metric point, `{x_value, y_value}`. -/
structure MetricPoint where
  x_value : Rat
  y_value : Rat
deriving DecidableEq, Repr

/-- Modelled from the spec: the Metric Store's state — for each
`(run_id, key)` the append-only ordered series, each stored point keeping
its batch's `logged_at_epoch_millis` stamp. -/
def MetricStoreState := Nat × String → List (MetricPoint × Int)

/-- Modelled from the spec: `append_points(run_id, key, points,
logged_at_epoch_millis)` — the points of one call are appended to the
series of that run and key, in order, all sharing the batch stamp; no
other series changes. -/
def appendPoints (store : MetricStoreState) (run : Nat) (key : String)
    (points : List MetricPoint) (logged_at : Int) : MetricStoreState :=
  fun rk => if rk = (run, key) then store rk ++ points.map (fun pt => (pt, logged_at)) else store rk

/-- Modelled from the spec: `get_series(run_id, key)` returns the stored
sequence in original append order. -/
def getSeries (store : MetricStoreState) (run : Nat) (key : String) :
    List (MetricPoint × Int) :=
  store (run, key)

/-- One `append_points` call: run id, key, points, batch stamp. -/
structure AppendCall where
  run : Nat
  key : String
  points : List MetricPoint
  logged_at : Int

/-- Run a sequence of `append_points` calls against a store. -/
def applyAppends (store : MetricStoreState) : List AppendCall → MetricStoreState
  | [] => store
  | c :: cs => applyAppends (appendPoints store c.run c.key c.points c.logged_at) cs

/-- The concatenation, in arrival order, of the stamped points that a call
sequence contributes to the series of `(run, key)`. -/
def contributedPoints (run : Nat) (key : String) (calls : List AppendCall) :
    List (MetricPoint × Int) :=
  (calls.map (fun c =>
    if (c.run, c.key) = (run, key) then c.points.map (fun pt => (pt, c.logged_at)) else [])).flatten

/-- The empty run table satisfies the store invariant. -/
lemma storeWf_nil : StoreWf [] := by
  intro i r h
  simp at h

/-- A successful `createRunStore` preserves the store invariant. -/
lemma storeWf_preserved {s : RunStoreState} {name : String} {parent : Option Nat}
    {s2 : RunStoreState} {id : Nat} (hwf : StoreWf s)
    (h : createRunStore s name parent = .ok (s2, id)) : StoreWf s2 := by
  intro i r hir
  match parent, h with
  | none, h =>
    simp only [createRunStore, Except.ok.injEq, Prod.mk.injEq] at h
    obtain ⟨hs2, hid⟩ := h
    subst hs2
    rcases lt_or_ge i s.length with hi | hi
    · rw [List.getElem?_append_left hi] at hir
      have := hwf i r hir
      rcases hr : r.parentId with _ | p
      · rw [hr] at this
        simpa [hr] using this
      · rw [hr] at this
        obtain ⟨hpi, pr, hpr, hd⟩ := this
        simp only [hr]
        exact ⟨hpi, pr, by rw [List.getElem?_append_left (lt_trans hpi hi)]; exact hpr, hd⟩
    · rw [List.getElem?_append_right hi] at hir
      have hi2 : i - s.length = 0 := by
        rcases Nat.eq_or_lt_of_le hi with h1 | h1
        · omega
        · simp only [List.getElem?_eq_some_iff] at hir
          obtain ⟨hlen, _⟩ := hir
          simp at hlen
          omega
      rw [hi2] at hir
      simp only [List.getElem?_cons_zero, Option.some.injEq] at hir
      subst hir
      simp
  | some p, h =>
    simp only [createRunStore] at h
    rcases hp : s[p]? with _ | pr
    · rw [hp] at h
      exact absurd h (by simp)
    · rw [hp] at h
      by_cases hd : pr.depth + 1 > 2
      · simp [hd] at h
      · simp only [hd, if_neg, ite_false, Except.ok.injEq, Prod.mk.injEq, reduceIte] at h
        obtain ⟨hs2, hid⟩ := h
        subst hs2
        have hplen : p < s.length := (List.getElem?_eq_some_iff.mp hp).1
        rcases lt_or_ge i s.length with hi | hi
        · rw [List.getElem?_append_left hi] at hir
          have := hwf i r hir
          rcases hr : r.parentId with _ | p2
          · rw [hr] at this
            simpa [hr] using this
          · rw [hr] at this
            obtain ⟨hpi, pr2, hpr2, hd2⟩ := this
            simp only [hr]
            exact ⟨hpi, pr2, by rw [List.getElem?_append_left (lt_trans hpi hi)]; exact hpr2, hd2⟩
        · rw [List.getElem?_append_right hi] at hir
          have hi2 : i - s.length = 0 := by
            rcases Nat.eq_or_lt_of_le hi with h1 | h1
            · omega
            · simp only [List.getElem?_eq_some_iff] at hir
              obtain ⟨hlen, _⟩ := hir
              simp at hlen
              omega
          rw [hi2] at hir
          simp only [List.getElem?_cons_zero, Option.some.injEq] at hir
          subst hir
          have hieq : i = s.length := by omega
          refine ⟨by omega, pr, ?_, rfl⟩
          rw [List.getElem?_append_left hplen]
          exact hp

/-- Under the store invariant, the ancestor chain of a run (with enough
fuel) has exactly the run's stored depth as its length. -/
lemma ancestorChain_length {s : RunStoreState} (hwf : StoreWf s) :
    ∀ (fuel i : Nat) (r : SRun), i < fuel → s[i]? = some r →
      (ancestorChain s fuel i).length = r.depth := by
  intro fuel
  induction fuel with
  | zero => intro i r h; omega
  | succ f ih =>
    intro i r hif hir
    have hw := hwf i r hir
    rcases hp : r.parentId with _ | p
    · rw [hp] at hw
      simp [ancestorChain, hir, hp, hw]
    · rw [hp] at hw
      obtain ⟨hpi, pr, hpr, hd⟩ := hw
      have hpf : p < f := by omega
      simp only [ancestorChain, hir, hp, List.length_append, List.length_cons,
        List.length_nil]
      rw [ih p pr hpf hpr]
      omega

/-- Under the store invariant, a run's stored depth is its number of
ancestors. -/
lemma depth_eq_numAncestors {s : RunStoreState} {i : Nat} {r : SRun}
    (hwf : StoreWf s) (h : s[i]? = some r) : r.depth = numAncestors s i := by
  have hi : i < s.length := (List.getElem?_eq_some_iff.mp h).1
  rw [numAncestors, ancestorChain_length hwf s.length i r hi h]

/-- C3: for any chain of run creations linked by parent id, each created
run's depth equals its number of ancestors; creating a run whose would-be
depth is 3 fails with `DepthExceeded`, surfaced as a 400 response whose
message contains "maximum nesting level"; and the concrete four-level
chain "level 0" → "level 1" → "level 2" succeeds for the first three
levels and fails at "level 3". -/
theorem createRun_depth_and_max_nesting :
    (∀ (s : RunStoreState) (name : String) (parent : Option Nat)
       (s2 : RunStoreState) (id : Nat),
       StoreWf s → createRunStore s name parent = .ok (s2, id) →
       StoreWf s2 ∧ ∀ r : SRun, s2[id]? = some r → r.depth = numAncestors s2 id)
    ∧ (∀ (s : RunStoreState) (name : String) (p : Nat) (pr : SRun),
       s[p]? = some pr → pr.depth = 2 →
       createRunStore s name (some p)
         = .error (.depthExceeded "Cannot create run: maximum nesting level of 2 exceeded")
       ∧ bs "maximum nesting level"
           <:+: bs "Cannot create run: maximum nesting level of 2 exceeded"
       ∧ httpStatusOf (.depthExceeded "Cannot create run: maximum nesting level of 2 exceeded") = 400)
    ∧ (createRunStore [] "level 0" none = .ok ([⟨"level 0", none, 0⟩], 0)
       ∧ createRunStore [⟨"level 0", none, 0⟩] "level 1" (some 0)
           = .ok ([⟨"level 0", none, 0⟩, ⟨"level 1", some 0, 1⟩], 1)
       ∧ createRunStore [⟨"level 0", none, 0⟩, ⟨"level 1", some 0, 1⟩] "level 2" (some 1)
           = .ok ([⟨"level 0", none, 0⟩, ⟨"level 1", some 0, 1⟩, ⟨"level 2", some 1, 2⟩], 2)
       ∧ createRunStore [⟨"level 0", none, 0⟩, ⟨"level 1", some 0, 1⟩, ⟨"level 2", some 1, 2⟩]
           "level 3" (some 2)
           = .error (.depthExceeded "Cannot create run: maximum nesting level of 2 exceeded")) := by
  refine ⟨?_, ?_, rfl, rfl, rfl, rfl⟩
  · intro s name parent s2 id hwf h
    have hwf2 := storeWf_preserved hwf h
    exact ⟨hwf2, fun r hr => depth_eq_numAncestors hwf2 hr⟩
  · intro s name p pr hp hd
    refine ⟨?_, by decide, rfl⟩
    simp [createRunStore, hp, hd]

/-- C3 witness: the theorem applied to the concrete creation of a root run
in the empty store, and to a store whose run already has depth 2. -/
theorem createRun_depth_and_max_nesting_witness :
    (StoreWf [] ∧ StoreWf [(⟨"level 0", none, 0⟩ : SRun)]
      ∧ ∀ r : SRun, [(⟨"level 0", none, 0⟩ : SRun)][0]? = some r →
          r.depth = numAncestors [(⟨"level 0", none, 0⟩ : SRun)] 0)
    ∧ ([(⟨"a", none, 2⟩ : SRun)][0]? = some (⟨"a", none, 2⟩ : SRun)
      ∧ createRunStore [(⟨"a", none, 2⟩ : SRun)] "b" (some 0)
          = .error (.depthExceeded "Cannot create run: maximum nesting level of 2 exceeded")) := by
  have h := createRun_depth_and_max_nesting
  have h1 := h.1 [] "level 0" none [⟨"level 0", none, 0⟩] 0 storeWf_nil rfl
  have h2 := h.2.1 [(⟨"a", none, 2⟩ : SRun)] "b" 0 ⟨"a", none, 2⟩ rfl rfl
  exact ⟨⟨storeWf_nil, h1.1, h1.2⟩, rfl, h2.1⟩

/-- C4: the metric store is append-only — after any sequence of
`append_points` calls, `get_series` returns the prior series followed by
exactly the concatenation, in arrival order, of the points each call
contributed to that `(run, key)`, no point removed, rewritten or merged;
in particular the spec's example: appending `[(0,2.0),(1,1.8)]` then
`[(2,1.5)]` under key "loss" yields `[(0,2.0),(1,1.8),(2,1.5)]`. -/
theorem append_points_append_only :
    (∀ (store : MetricStoreState) (calls : List AppendCall) (run : Nat) (key : String),
      getSeries (applyAppends store calls) run key
        = getSeries store run key ++ contributedPoints run key calls)
    ∧ getSeries (applyAppends (fun _ => [])
        [⟨1, "loss", [⟨0, 2⟩, ⟨1, 9/5⟩], 5⟩, ⟨1, "loss", [⟨2, 3/2⟩], 5⟩]) 1 "loss"
        = [(⟨0, 2⟩, 5), (⟨1, 9/5⟩, 5), (⟨2, 3/2⟩, 5)] := by
  constructor
  · intro store calls
    induction calls generalizing store with
    | nil => intro run key; simp [applyAppends, contributedPoints, getSeries]
    | cons c cs ih =>
      intro run key
      simp only [applyAppends, contributedPoints, List.map_cons, List.flatten_cons]
      rw [ih]
      simp only [contributedPoints, getSeries, appendPoints]
      by_cases hc : ((run, key) : Nat × String) = (c.run, c.key)
      · rw [if_pos hc, if_pos hc.symm, List.append_assoc]
      · rw [if_neg hc, if_neg fun h0 => hc h0.symm]
        simp
  · rfl

/-- C1 counter-evidence: the `create_run` of the supplied client takes no
parent argument at all — the request it issues for the nested-runs test's
"child run" carries only the quoted name, and its URL never mentions a
`parent_run_uuid` query parameter; the `id` field of the JSON response is
returned. -/
theorem create_run_issues_no_parent_param :
    (create_run "child run" "http://localhost:8080"
        (.success 200 (some (.obj [("id", .str "abc123")])))).1
      = [⟨"POST", "http://localhost:8080/api/runs?name=child%20run", none, []⟩]
    ∧ (create_run "child run" "http://localhost:8080"
        (.success 200 (some (.obj [("id", .str "abc123")])))).2 = .ok (.str "abc123")
    ∧ ¬ (bs "parent_run_uuid" <:+: bs "http://localhost:8080/api/runs?name=child%20run") := by
  exact ⟨rfl, rfl, by decide⟩

/-- C2 counter-evidence: the JSON body `log_metric` sends has exactly the
fields `run_uuid`, `key`, `value`, `logged_at` (plus the defaulted `time`)
— there is no `values` array and no `logged_at_epoch_millis` field. -/
theorem log_metric_payload_has_flat_fields :
    ((log_metric_payload "run-1" "loss" (.int 1) (some 1000) none none 0).map Prod.fst
        = ["run_uuid", "key", "value", "logged_at", "time"])
    ∧ "values" ∉ (log_metric_payload "run-1" "loss" (.int 1) (some 1000) none none 0).map Prod.fst
    ∧ "logged_at_epoch_millis"
        ∉ (log_metric_payload "run-1" "loss" (.int 1) (some 1000) none none 0).map Prod.fst := by
  exact ⟨rfl, by decide, by decide⟩

/-- C5: the `type` tag of every issued `/api/params` request is one of
`string`, `bool`, `int`, `float`; a Python bool is tagged `bool` with
value "true"/"false" even though `isinstance(b, int)` holds for it; ints,
floats and strs get their own tags; any other type raises `TypeError`
with no request issued; and the issued request's URL carries exactly the
detected tag and serialised value. -/
theorem log_param_type_tagging :
    (∀ (v : PyValue) (t s0 : String), log_param_detect v = .ok (t, s0) →
       t = "string" ∨ t = "bool" ∨ t = "int" ∨ t = "float")
    ∧ (∀ b : Bool, log_param_detect (.bool b) = .ok ("bool", if b then "true" else "false"))
    ∧ isinstanceInt (.bool true) = true
    ∧ (∀ n : Int, log_param_detect (.int n) = .ok ("int", Int.repr n))
    ∧ (∀ r : String, log_param_detect (.float r) = .ok ("float", r))
    ∧ (∀ s : String, log_param_detect (.str s) = .ok ("string", s))
    ∧ (∀ (tn ru k uri : String) (resp : HttpResponse),
       log_param ru k (.other tn) uri resp
         = ([], .error (.typeError
             ("Unsupported parameter type: <class " ++ sglQuote ++ tn ++ sglQuote ++ ">"))))
    ∧ (∀ (ru k : String) (v : PyValue) (uri : String) (resp : HttpResponse) (t s0 : String),
       log_param_detect v = .ok (t, s0) →
       (log_param ru k v uri resp).1 = [⟨"POST", log_param_url uri ru k s0 t, none, []⟩]) := by
  refine ⟨?_, ?_, rfl, ?_, ?_, ?_, ?_, ?_⟩
  · intro v t s0 h
    cases v <;> simp [log_param_detect, isinstanceBool, isinstanceInt, isinstanceFloat,
      isinstanceStr] at h <;> simp [← h.1]
  · intro b
    simp [log_param_detect, isinstanceBool, pyTruthy]
  · intro n
    simp [log_param_detect, isinstanceBool, isinstanceInt, pyStrOfValue]
  · intro r
    simp [log_param_detect, isinstanceBool, isinstanceInt, isinstanceFloat, pyStrOfValue]
  · intro s
    simp [log_param_detect, isinstanceBool, isinstanceInt, isinstanceFloat, isinstanceStr,
      pyStrOfValue]
  · intro tn ru k uri resp
    rfl
  · intro ru k v uri resp t s0 h
    cases resp with
    | success status body =>
      simp only [log_param, h]
      by_cases hs : status ≠ 200
      · simp [hs]
      · cases body <;> simp [hs] <;> rename_i j <;> cases hj : pyDictGet j "status" <;> simp
    | httpError code body => simp [log_param, h]

/-- C5 witness: the theorem applied to a `True` bool value and the request
issued for it. -/
theorem log_param_type_tagging_witness :
    log_param_detect (.bool true) = .ok ("bool", "true")
    ∧ (log_param "r" "k" (.bool true) "http://localhost:8080" (.success 200 none)).1
        = [⟨"POST", log_param_url "http://localhost:8080" "r" "k" "true" "bool", none, []⟩] := by
  have h := log_param_type_tagging
  exact ⟨h.2.1 true, h.2.2.2.2.2.2.2 "r" "k" (.bool true) "http://localhost:8080"
    (.success 200 none) "bool" "true" (h.2.1 true)⟩

/-- C10: every payload `log_metric` builds has a `time` or a `step` field;
when the caller gives neither `time_value` nor `step`, `time` equals
`logged_at` (itself defaulting to the current epoch-millisecond clock);
`value` is `float()`-coerced and `step`, when present, `int()`-coerced. -/
theorem log_metric_payload_time_or_step :
    ∀ (ru k : String) (v : PyNum) (la : Option Int) (tv st : Option PyNum) (now : Int),
      ("time" ∈ (log_metric_payload ru k v la tv st now).map Prod.fst
        ∨ "step" ∈ (log_metric_payload ru k v la tv st now).map Prod.fst)
      ∧ (tv = none → st = none →
          List.lookup "time" (log_metric_payload ru k v la tv st now)
            = some (.num ((la.getD now : Int) : Rat)))
      ∧ List.lookup "value" (log_metric_payload ru k v la tv st now)
          = some (.num (pyFloat v))
      ∧ (∀ s0 : PyNum, st = some s0 →
          List.lookup "step" (log_metric_payload ru k v la tv st now)
            = some (.num ((pyInt s0 : Int) : Rat))) := by
  intro ru k v la tv st now
  refine ⟨?_, ?_, ?_, ?_⟩
  · rcases tv with _ | tval
    · rcases st with _ | sval
      · exact Or.inl (by rcases la with _ | t <;> simp [log_metric_payload])
      · exact Or.inr (by rcases la with _ | t <;> simp [log_metric_payload])
    · exact Or.inl (by rcases la with _ | t <;> rcases st with _ | sval <;>
        simp [log_metric_payload])
  · intro h1 h2
    subst h1; subst h2
    rcases la with _ | t <;> rfl
  · rcases la with _ | t <;> rcases tv with _ | tval <;> rcases st with _ | sval <;> rfl
  · intro s0 hs0
    subst hs0
    rcases la with _ | t <;> rcases tv with _ | tval <;> rfl

/-- C10 witness: the theorem applied with neither `time_value` nor `step`
supplied, and once with a step. -/
theorem log_metric_payload_time_or_step_witness :
    List.lookup "time" (log_metric_payload "r" "loss" (.int 5) (some 7) none none 0)
      = some (.num ((7 : Int) : Rat))
    ∧ List.lookup "value" (log_metric_payload "r" "loss" (.int 5) (some 7) none none 0)
      = some (.num (pyFloat (.int 5)))
    ∧ List.lookup "step" (log_metric_payload "r" "loss" (.int 5) (some 7) none (some (.int 3)) 0)
      = some (.num ((pyInt (.int 3) : Int) : Rat)) := by
  have h1 := log_metric_payload_time_or_step "r" "loss" (.int 5) (some 7) none none 0
  have h2 := log_metric_payload_time_or_step "r" "loss" (.int 5) (some 7) none (some (.int 3)) 0
  exact ⟨h1.2.1 rfl rfl, h1.2.2.1, h2.2.2.2 (.int 3) rfl⟩

/-- C9: when the local file does not exist, `log_artifact` raises
`FileNotFoundError` before any HTTP request is issued — the request list
is empty, so no request reaches the server. -/
theorem log_artifact_missing_file_no_request :
    ∀ (ru p fp : String) (fs : String → Option Bytes) (uri : String) (resp : HttpResponse),
      fs fp = none →
      log_artifact ru p fp fs uri resp
        = ([], .error (.fileNotFoundError ("File not found: " ++ fp))) := by
  intro ru p fp fs uri resp h
  simp [log_artifact, h]

/-- C9 witness: the theorem applied to an empty filesystem. -/
theorem log_artifact_missing_file_no_request_witness :
    ((fun _ => none : String → Option Bytes) "/tmp/missing.txt" = none)
    ∧ log_artifact "r" "a.png" "/tmp/missing.txt" (fun _ => none) "http://localhost:8080"
        (.success 200 none)
      = ([], .error (.fileNotFoundError ("File not found: " ++ "/tmp/missing.txt"))) :=
  ⟨rfl, log_artifact_missing_file_no_request "r" "a.png" "/tmp/missing.txt" (fun _ => none)
    "http://localhost:8080" (.success 200 none) rfl⟩

/-- True iff the operation ended with a raised exception. -/
def raised (x : Except PyError Json) : Bool :=
  match x with
  | .error _ => true
  | .ok _ => false

/-- C8 (amended): every client operation issues at most one HTTP request
per call — exactly one whenever client-side validation passes (always for
`create_run` and `log_metric`; a supported value type for `log_param`; an
existing file for `log_artifact`) — and on a failure response it raises to
the caller while still having issued only that single request: no retry or
backoff. -/
theorem client_single_attempt :
    (∀ (name uri : String) (resp : HttpResponse), (create_run name uri resp).1.length = 1)
    ∧ (∀ (name uri : String) (code : Nat) (b : Option Json),
        raised (create_run name uri (.httpError code b)).2 = true)
    ∧ (∀ (ru k : String) (v : PyValue) (uri : String) (resp : HttpResponse),
        (log_param ru k v uri resp).1.length ≤ 1)
    ∧ (∀ (ru k : String) (v : PyValue) (uri : String) (resp : HttpResponse)
         (ts : String × String), log_param_detect v = .ok ts →
        (log_param ru k v uri resp).1.length = 1)
    ∧ (∀ (ru k : String) (v : PyValue) (uri : String) (code : Nat) (b : Option Json)
         (ts : String × String), log_param_detect v = .ok ts →
        raised (log_param ru k v uri (.httpError code b)).2 = true)
    ∧ (∀ (ru k : String) (v : PyNum) (la : Option Int) (tv st : Option PyNum)
         (uri : String) (now : Int) (resp : HttpResponse),
        (log_metric ru k v la tv st uri now resp).1.length = 1)
    ∧ (∀ (ru k : String) (v : PyNum) (la : Option Int) (tv st : Option PyNum)
         (uri : String) (now : Int) (code : Nat) (b : Option Json),
        raised (log_metric ru k v la tv st uri now (.httpError code b)).2 = true)
    ∧ (∀ (ru p fp : String) (fs : String → Option Bytes) (uri : String) (resp : HttpResponse),
        (log_artifact ru p fp fs uri resp).1.length ≤ 1)
    ∧ (∀ (ru p fp : String) (fs : String → Option Bytes) (uri : String) (resp : HttpResponse)
         (c : Bytes), fs fp = some c →
        (log_artifact ru p fp fs uri resp).1.length = 1)
    ∧ (∀ (ru p fp : String) (fs : String → Option Bytes) (uri : String) (code : Nat)
         (b : Option Json) (c : Bytes), fs fp = some c →
        raised (log_artifact ru p fp fs uri (.httpError code b)).2 = true) := by
  refine ⟨?_, ?_, ?_, ?_, ?_, ?_, ?_, ?_, ?_, ?_⟩
  · intro name uri resp
    rcases resp with ⟨s, _ | j⟩ | ⟨code, b⟩
    · rfl
    · rcases hj : pyDictGet j "id" with _ | v <;> simp [create_run, hj]
    · rfl
  · intro name uri code b
    rfl
  · intro ru k v uri resp
    rcases hd : log_param_detect v with e | ⟨t, s0⟩
    · simp [log_param, hd]
    · rcases resp with ⟨s, _ | j⟩ | ⟨code, b⟩
      · by_cases hs : s ≠ 200 <;> simp [log_param, hd, hs]
      · by_cases hs : s ≠ 200
        · simp [log_param, hd, hs]
        · rcases hj : pyDictGet j "status" with _ | v2 <;> simp [log_param, hd, hs, hj]
      · simp [log_param, hd]
  · intro ru k v uri resp ts hd
    rcases ts with ⟨t, s0⟩
    rcases resp with ⟨s, _ | j⟩ | ⟨code, b⟩
    · by_cases hs : s ≠ 200 <;> simp [log_param, hd, hs]
    · by_cases hs : s ≠ 200
      · simp [log_param, hd, hs]
      · rcases hj : pyDictGet j "status" with _ | v2 <;> simp [log_param, hd, hs, hj]
    · simp [log_param, hd]
  · intro ru k v uri code b ts hd
    rcases ts with ⟨t, s0⟩
    simp [log_param, hd, raised]
  · intro ru k v la tv st uri now resp
    rcases resp with ⟨s, _ | j⟩ | ⟨code, b⟩
    · by_cases hs : s ≠ 200 <;> simp [log_metric, hs]
    · by_cases hs : s ≠ 200
      · simp [log_metric, hs]
      · rcases hj : pyDictGet j "status" with _ | v2 <;> simp [log_metric, hs, hj]
    · rfl
  · intro ru k v la tv st uri now code b
    rfl
  · intro ru p fp fs uri resp
    rcases hf : fs fp with _ | c
    · simp [log_artifact, hf]
    · rcases resp with ⟨s, _ | j⟩ | ⟨code, _ | e⟩
      · by_cases hs : s ≠ 200 <;> simp [log_artifact, hf, hs]
      · by_cases hs : s ≠ 200
        · simp [log_artifact, hf, hs]
        · rcases hj : pyDictGet j "status" with _ | v2 <;> simp [log_artifact, hf, hs, hj]
      · simp [log_artifact, hf]
      · simp [log_artifact, hf]
  · intro ru p fp fs uri resp c hf
    rcases resp with ⟨s, _ | j⟩ | ⟨code, _ | e⟩
    · by_cases hs : s ≠ 200 <;> simp [log_artifact, hf, hs]
    · by_cases hs : s ≠ 200
      · simp [log_artifact, hf, hs]
      · rcases hj : pyDictGet j "status" with _ | v2 <;> simp [log_artifact, hf, hs, hj]
    · simp [log_artifact, hf]
    · simp [log_artifact, hf]
  · intro ru p fp fs uri code b c hf
    rcases b with _ | e <;> simp [log_artifact, hf, raised]

/-- C8 witness: the amended theorem applied to a `log_param` call whose
validation passes and whose response is a failure. -/
theorem client_single_attempt_witness :
    log_param_detect (.str "musa") = .ok ("string", "musa")
    ∧ (log_param "r" "k" (.str "musa") "http://localhost:8080"
        (.httpError 500 none)).1.length = 1
    ∧ raised (log_param "r" "k" (.str "musa") "http://localhost:8080"
        (.httpError 500 none)).2 = true := by
  have h := client_single_attempt
  exact ⟨rfl,
    h.2.2.2.1 "r" "k" (.str "musa") "http://localhost:8080" (.httpError 500 none)
      ("string", "musa") rfl,
    h.2.2.2.2.1 "r" "k" (.str "musa") "http://localhost:8080" 500 none
      ("string", "musa") rfl⟩

/-- C8 counterexample: a `log_param` call with an unsupported value type
issues zero HTTP requests, not one — "exactly one HTTP request per call"
fails as stated. -/
theorem client_single_attempt_counterexample :
    ¬ ((log_param "r" "k" (.other "NoneType") "http://localhost:8080"
        (.success 200 none)).1.length = 1) := by
  decide

/-- The body `log_artifact` builds is, byte for byte, the multipart
encoding of exactly three parts in order: `run_uuid` (text), `path`
(text), then `file` (binary, content unchanged). -/
lemma log_artifact_body_is_multipart (ru p fn : String) (c : Bytes) :
    log_artifact_body ru p fn c
      = encodeMultipart boundary
          [.text "run_uuid" ru, .text "path" p,
           .file "file" fn "application/octet-stream" c] := by
  have e1 : ("Content-Disposition: form-data; name=\"" ++ "run_uuid" ++ "\"\r\n\r\n" : String)
      = "Content-Disposition: form-data; name=\"run_uuid\"\r\n\r\n" := rfl
  have e2 : ("Content-Disposition: form-data; name=\"" ++ "path" ++ "\"\r\n\r\n" : String)
      = "Content-Disposition: form-data; name=\"path\"\r\n\r\n" := rfl
  have e3 : ("Content-Disposition: form-data; name=\"" ++ "file" ++ "\"; filename=\"" : String)
      = "Content-Disposition: form-data; name=\"file\"; filename=\"" := rfl
  have e4 : ("Content-Type: " ++ "application/octet-stream" ++ "\r\n\r\n" : String)
      = "Content-Type: application/octet-stream\r\n\r\n" := rfl
  simp only [log_artifact_body, log_artifact_body_parts, encodeMultipart, multipartParts,
    multipartPartBody, e1, e2, e3, e4, List.flatten_cons, List.flatten_nil,
    List.append_nil, List.append_assoc]

/-- C6: every artifact-upload request `log_artifact` builds is a single
POST whose multipart/form-data body consists of exactly three parts in
order — `run_uuid` (text), `path` (text), then `file` (binary) — where
the file part carries the local file's bytes unchanged and a filename
equal to the basename of the local path. -/
theorem log_artifact_multipart_body :
    ∀ (ru p fp : String) (fs : String → Option Bytes) (uri : String)
      (resp : HttpResponse) (c : Bytes),
      fs fp = some c →
      (log_artifact ru p fp fs uri resp).1
        = [⟨"POST", uri ++ "/api/artifacts",
            some (.bytes (encodeMultipart boundary
              [.text "run_uuid" ru, .text "path" p,
               .file "file" (osPathBasename fp) "application/octet-stream" c])),
            [("Content-Type", "multipart/form-data; boundary=" ++ boundary)]⟩] := by
  intro ru p fp fs uri resp c hf
  have hb := log_artifact_body_is_multipart ru p (osPathBasename fp) c
  rcases resp with ⟨s, _ | j⟩ | ⟨code, _ | e⟩
  · by_cases hs : s ≠ 200 <;> simp [log_artifact, hf, hs, hb]
  · by_cases hs : s ≠ 200
    · simp [log_artifact, hf, hs, hb]
    · rcases hj : pyDictGet j "status" with _ | v2 <;> simp [log_artifact, hf, hs, hj, hb]
  · simp [log_artifact, hf, hb]
  · simp [log_artifact, hf, hb]

/-- C6 witness: the theorem applied to a concrete upload of a two-byte
file at `/tmp/dir/plot.png`, whose basename is `plot.png`. -/
theorem log_artifact_multipart_body_witness :
    ((fun q => if q = "/tmp/dir/plot.png" then some (bs "PN") else none)
        "/tmp/dir/plot.png" = some (bs "PN"))
    ∧ (log_artifact "r1" "plots/trajectory.png" "/tmp/dir/plot.png"
        (fun q => if q = "/tmp/dir/plot.png" then some (bs "PN") else none)
        "http://localhost:8080" (.success 200 none)).1
      = [⟨"POST", "http://localhost:8080" ++ "/api/artifacts",
          some (.bytes (encodeMultipart boundary
            [.text "run_uuid" "r1", .text "path" "plots/trajectory.png",
             .file "file" (osPathBasename "/tmp/dir/plot.png")
               "application/octet-stream" (bs "PN")])),
          [("Content-Type", "multipart/form-data; boundary=" ++ boundary)]⟩] :=
  ⟨rfl, log_artifact_multipart_body "r1" "plots/trajectory.png" "/tmp/dir/plot.png"
    (fun q => if q = "/tmp/dir/plot.png" then some (bs "PN") else none)
    "http://localhost:8080" (.success 200 none) (bs "PN") rfl⟩

/-- `bs` distributes over string append. -/
lemma bs_append (s t : String) : bs (s ++ t) = bs s ++ bs t :=
  String.data_append s t

/-- An infix of `b` is an infix of `b ++ c`. -/
lemma infix_append_of_left {a b : Bytes} (c : Bytes) (h : a <:+: b) : a <:+: b ++ c :=
  h.trans (List.prefix_append b c).isInfix

/-- An infix of `b` is an infix of `c ++ b`. -/
lemma infix_append_of_right {a b : Bytes} (c : Bytes) (h : a <:+: b) : a <:+: c ++ b :=
  h.trans (List.suffix_append c b).isInfix

/-- Each element's `repr` occurs inside the comma-separated rendering of
the list it belongs to. -/
lemma mem_reprCommaSep : ∀ (xs : List Json) (x : Json), x ∈ xs →
    bs (pyReprJson x) <:+: bs (pyReprCommaSep xs) := by
  intro xs
  induction xs with
  | nil => intro x hx; simp at hx
  | cons y ys ih =>
    intro x hx
    rcases ys with _ | ⟨z, zs⟩
    · rcases List.mem_singleton.mp hx with rfl
      exact List.infix_refl _
    · rcases List.mem_cons.mp hx with rfl | hx2
      · have : pyReprCommaSep (x :: z :: zs) = pyReprJson x ++ ", " ++ pyReprCommaSep (z :: zs) := by
          simp [pyReprCommaSep]
        rw [this, bs_append, bs_append]
        exact infix_append_of_left _ (infix_append_of_left _ (List.infix_refl _))
      · have : pyReprCommaSep (y :: z :: zs) = pyReprJson y ++ ", " ++ pyReprCommaSep (z :: zs) := by
          simp [pyReprCommaSep]
        rw [this, bs_append, bs_append]
        exact infix_append_of_right _ (ih x hx2)

/-- C7: when the metrics endpoint rejects with a JSON error body carrying
`missing_fields`, the raised error message interpolates both the server's
`error` message and the Python rendering of the missing-field list — so
the message contains the server message and every missing field name as a
substring; when the error body is not JSON, the message names the HTTP
status code instead. -/
theorem log_metric_error_message_reporting :
    (∀ (ru k : String) (v : PyNum) (la : Option Int) (tv st : Option PyNum)
       (uri : String) (now : Int) (code : Nat) (fields : List (String × Json))
       (msg : String) (names : List String),
       List.lookup "error" fields = some (.str msg) →
       List.lookup "missing_fields" fields = some (.arr (names.map .str)) →
       (log_metric ru k v la tv st uri now (.httpError code (some (.obj fields)))).2
         = .error (.runtimeError
             ("Failed to log metric: " ++ msg ++ " - " ++ pyStrJson (.arr (names.map .str))))
       ∧ bs msg <:+: bs ("Failed to log metric: " ++ msg ++ " - "
             ++ pyStrJson (.arr (names.map .str)))
       ∧ ∀ n ∈ names, bs n <:+: bs ("Failed to log metric: " ++ msg ++ " - "
             ++ pyStrJson (.arr (names.map .str))))
    ∧ (∀ (ru k : String) (v : PyNum) (la : Option Int) (tv st : Option PyNum)
         (uri : String) (now : Int) (code : Nat),
       (log_metric ru k v la tv st uri now (.httpError code none)).2
         = .error (.runtimeError ("Failed to log metric: HTTP " ++ Nat.repr code))
       ∧ bs (Nat.repr code) <:+: bs ("Failed to log metric: HTTP " ++ Nat.repr code)) := by
  constructor
  · intro ru k v la tv st uri now code fields msg names herr hmf
    refine ⟨?_, ?_, ?_⟩
    · simp [log_metric, log_metric_handle_http_error, pyDictGet, herr, hmf, pyStrJson]
    · simp only [bs_append]
      exact infix_append_of_left _ (infix_append_of_left _
        (infix_append_of_right _ (List.infix_refl _)))
    · intro n hn
      have h1 : bs n <:+: bs (pyReprJson (.str n)) := by
        have : pyReprJson (.str n) = sglQuote ++ n ++ sglQuote := by simp [pyReprJson]
        rw [this, bs_append, bs_append]
        exact infix_append_of_left _ (infix_append_of_right _ (List.infix_refl _))
      have h2 : bs (pyReprJson (.str n)) <:+: bs (pyReprCommaSep (names.map .str)) :=
        mem_reprCommaSep (names.map .str) (.str n) (List.mem_map_of_mem _ hn)
      have h3 : bs (pyReprCommaSep (names.map .str)) <:+: bs (pyStrJson (.arr (names.map .str))) := by
        have : pyStrJson (.arr (names.map .str))
            = "[" ++ pyReprCommaSep (names.map .str) ++ "]" := by
          simp [pyStrJson, pyReprJson]
        rw [this, bs_append, bs_append]
        exact infix_append_of_left _ (infix_append_of_right _ (List.infix_refl _))
      have h4 : bs (pyStrJson (.arr (names.map .str)))
          <:+: bs ("Failed to log metric: " ++ msg ++ " - " ++ pyStrJson (.arr (names.map .str))) := by
        simp only [bs_append]
        exact infix_append_of_right _ (List.infix_refl _)
      exact ((h1.trans h2).trans h3).trans h4
  · intro ru k v la tv st uri now code
    refine ⟨rfl, ?_⟩
    rw [bs_append]
    exact infix_append_of_right _ (List.infix_refl _)

/-- C7 witness: the theorem applied to a concrete 400 response whose body
names one missing field, and to a concrete non-JSON 500 body. -/
theorem log_metric_error_message_reporting_witness :
    (List.lookup "error" [("error", Json.str "missing required fields"),
        ("missing_fields", Json.arr [.str "x_values"])] = some (.str "missing required fields")
     ∧ List.lookup "missing_fields" [("error", Json.str "missing required fields"),
        ("missing_fields", Json.arr [.str "x_values"])] = some (.arr (["x_values"].map .str))
     ∧ (log_metric "r" "loss" (.int 1) (some 5) none none "http://localhost:8080" 0
          (.httpError 400 (some (.obj [("error", Json.str "missing required fields"),
            ("missing_fields", Json.arr [.str "x_values"])])))).2
        = .error (.runtimeError ("Failed to log metric: " ++ "missing required fields"
            ++ " - " ++ pyStrJson (.arr (["x_values"].map .str))))
     ∧ bs "x_values" <:+: bs ("Failed to log metric: " ++ "missing required fields"
            ++ " - " ++ pyStrJson (.arr (["x_values"].map .str))))
    ∧ ((log_metric "r" "loss" (.int 1) (some 5) none none "http://localhost:8080" 0
          (.httpError 500 none)).2
        = .error (.runtimeError ("Failed to log metric: HTTP " ++ Nat.repr 500))
       ∧ bs (Nat.repr 500) <:+: bs ("Failed to log metric: HTTP " ++ Nat.repr 500)) := by
  have h := log_metric_error_message_reporting
  have h1 := h.1 "r" "loss" (.int 1) (some 5) none none "http://localhost:8080" 0 400
    [("error", Json.str "missing required fields"), ("missing_fields", Json.arr [.str "x_values"])]
    "missing required fields" ["x_values"] rfl rfl
  have h2 := h.2 "r" "loss" (.int 1) (some 5) none none "http://localhost:8080" 0 500
  exact ⟨⟨rfl, rfl, h1.1, h1.2.2 "x_values" (by simp)⟩, h2⟩
